import Mathlib

/-
A shallow embedding of `packages/ember-debug/lib/index.js`: the named
debug-function registry (`debugFunctions`, `getDebugFunction`,
`setDebugFunction`, the public entry points `assert`, `info`, `warn`,
`debug`, `deprecate`, `deprecateFunc`, `runInDebug`, `debugSeal`,
`debugFreeze`), the development default implementations installed by
`setDebugFunction(...)` at module initialization, the feature-flag
consistency check `_warnIfUsingStrippedFeatureFlags`, and the
`features-stripped-test` canary probe run at module initialization.

JavaScript values are modelled by the inductive `JSValue`; functions are
defunctionalized as `funcRef` tags resolved through an environment
`FuncEnv`. Calls into the external warning / deprecation handler chains
and the logging sink are recorded as elements of an effect trace
(`Effect`); a thrown `EmberError` is an `Except.error` result.
-/

namespace EmberDebug

/-- A JavaScript value, as far as this module inspects one: the primitives
with their truthiness, plain objects as ordered field lists, and opaque
function references (functions are given semantics separately through a
`FuncEnv`). Numbers are modelled as integers; the module never does
arithmetic on them. -/
inductive JSValue where
  | undefined : JSValue
  | null : JSValue
  | bool (b : Bool) : JSValue
  | num (n : Int) : JSValue
  | str (s : String) : JSValue
  | obj (fields : List (String × JSValue)) : JSValue
  | funcRef (id : Nat) : JSValue
deriving Repr

/-- JavaScript truthiness (`!x` in the source is `! truthy x` here):
`undefined`, `null`, `false`, `0`, and `""` are falsy; objects and
functions are always truthy. -/
def truthy : JSValue → Bool
  | .undefined => false
  | .null => false
  | .bool b => b
  | .num n => n != 0
  | .str s => !s.isEmpty
  | .obj _ => true
  | .funcRef _ => true

/-- A JavaScript object viewed as an ordered association list of string
keys to values; `Object.keys` order is insertion order for string keys. -/
abbrev JSObj := List (String × JSValue)

/-- Property read `o[k]`: the value at the first entry with key `k`, or
`undefined` when there is none. -/
def getKey (o : JSObj) (k : String) : JSValue :=
  match o.find? (fun p => p.1 == k) with
  | some p => p.2
  | none => .undefined

/-- The `k in o` operator: whether `o` has an entry for key `k`. -/
def hasKey (o : JSObj) (k : String) : Bool :=
  (o.find? (fun p => p.1 == k)).isSome

/-- Property write `o[k] = v`: replace the first entry with key `k` in
place, or append a new entry when the key is absent. -/
def setKey : JSObj → String → JSValue → JSObj
  | [], k, v => [(k, v)]
  | (k', v') :: rest, k, v =>
    if k' == k then (k, v) :: rest else (k', v') :: setKey rest k v

/-- Property delete `delete o[k]`: remove the entries with key `k`. -/
def delKey (o : JSObj) (k : String) : JSObj :=
  o.filter (fun p => p.1 != k)

/-- `Object.keys(o)`. -/
def keysOf (o : JSObj) : List String :=
  o.map Prod.fst

/-- An `EmberError` (from `./error`): an exception-like error carrying a
message string. -/
structure EmberError where
  message : String
deriving Repr, DecidableEq

/-- One observable call out of this module: a call into the external
warning handler chain (`warn(message, test, { id })`), into the external
deprecation handler chain (the arguments given to `deprecate`), or into
the logging sink. -/
inductive Effect where
  | warnCall (message : String) (test : Bool) (id : String) : Effect
  | deprecateCall (args : List JSValue) : Effect
  | logDebug (message : String) : Effect
  | logInfo (args : List JSValue) : Effect
deriving Repr

/-- The outcome of calling a debug function: the trace of effects it
performed, and either a normal result value or a thrown error. -/
abbrev TraceResult := List Effect × Except EmberError JSValue

/-- The semantics of one registry implementation: from the argument list
to effects and result (entry points call with `this = undefined`). -/
abbrev DebugFn := List JSValue → TraceResult

/-- The registry object `debugFunctions` viewed abstractly: a mapping
from property name to the implementation stored there, `none` when the
property is absent. -/
abbrev Registry := String → Option DebugFn

/-- The semantics of a defunctionalized JavaScript function value:
`this`-binding, then argument list, to effects and result. -/
abbrev JSFunc := JSValue → List JSValue → TraceResult

/-- Resolution of `funcRef` tags to function semantics. -/
abbrev FuncEnv := Nat → JSFunc

/-- `f.apply(thisv, args)` for a `JSValue` `f`: calls through the
environment when `f` is a function reference, and throws a `TypeError`
when `f` is not a function (e.g. reading `.apply` of `undefined`). -/
def applyJS (env : FuncEnv) : JSValue → JSValue → List JSValue → TraceResult
  | .funcRef id, thisv, args => env id thisv args
  | _, _, _ => ([], .error ⟨"TypeError: not a function"⟩)

/-- A no-op entry of the initial `debugFunctions` object: a function body
`{}` performs no effects and returns `undefined`. -/
def noop : DebugFn := fun _ => ([], .ok .undefined)

/-- The initial `deprecateFunc(...args) { return args[args.length - 1]; }`
entry: returns the last argument (`undefined` on an empty argument
list, as `args[-1]` would be). -/
def noopDeprecateFunc : DebugFn := fun args =>
  ([], .ok (args.getLast?.getD .undefined))

/-- The initial value of the `debugFunctions` registry object (lines
17–26): eight properties, all no-ops except `deprecateFunc` which
returns its last argument. There is no `runInDebug` property. -/
def debugFunctions : Registry := fun name =>
  if name = "assert" then some noop
  else if name = "info" then some noop
  else if name = "warn" then some noop
  else if name = "debug" then some noop
  else if name = "deprecate" then some noop
  else if name = "deprecateFunc" then some noopDeprecateFunc
  else if name = "debugSeal" then some noop
  else if name = "debugFreeze" then some noop
  else none

/-- `getDebugFunction(name)`: `return debugFunctions[name];`. -/
def getDebugFunction (reg : Registry) (name : String) : Option DebugFn :=
  reg name

/-- `setDebugFunction(name, fn)`: `debugFunctions[name] = fn;`, as a
functional update of the registry state. -/
def setDebugFunction (reg : Registry) (name : String) (fn : DebugFn) : Registry :=
  fun n => if n = name then some fn else reg n

/-- `debugFunctions[name].apply(undefined, arguments)`: call the stored
implementation, or throw the `TypeError` a call of `undefined` raises
when the property is absent. -/
def applyFn : Option DebugFn → List JSValue → TraceResult
  | some f, args => f args
  | none, _ => ([], .error ⟨"TypeError: not a function"⟩)

namespace Entry

/-- Public entry point `assert` (lines 251–253). -/
def assert (reg : Registry) (args : List JSValue) : TraceResult :=
  applyFn (reg "assert") args

/-- Public entry point `info` (lines 255–257). -/
def info (reg : Registry) (args : List JSValue) : TraceResult :=
  applyFn (reg "info") args

/-- Public entry point `warn` (lines 259–261). -/
def warn (reg : Registry) (args : List JSValue) : TraceResult :=
  applyFn (reg "warn") args

/-- Public entry point `debug` (lines 263–265). -/
def debug (reg : Registry) (args : List JSValue) : TraceResult :=
  applyFn (reg "debug") args

/-- Public entry point `deprecate` (lines 267–269). -/
def deprecate (reg : Registry) (args : List JSValue) : TraceResult :=
  applyFn (reg "deprecate") args

/-- Public entry point `deprecateFunc` (lines 271–273). -/
def deprecateFunc (reg : Registry) (args : List JSValue) : TraceResult :=
  applyFn (reg "deprecateFunc") args

/-- Public entry point `runInDebug` (lines 275–277). -/
def runInDebug (reg : Registry) (args : List JSValue) : TraceResult :=
  applyFn (reg "runInDebug") args

/-- Public entry point `debugSeal` (lines 279–281). -/
def debugSeal (reg : Registry) (args : List JSValue) : TraceResult :=
  applyFn (reg "debugSeal") args

/-- Public entry point `debugFreeze` (lines 283–285). -/
def debugFreeze (reg : Registry) (args : List JSValue) : TraceResult :=
  applyFn (reg "debugFreeze") args

end Entry

/-- The development `assert` implementation installed by
`setDebugFunction('assert', ...)` (lines 61–65):
`if (!test) { throw new EmberError(`Assertion Failed: ${desc}`); }`.
It performs no effects in either branch. -/
def assertDev (desc : String) (test : JSValue) :
    List Effect × Except EmberError Unit :=
  if !truthy test then
    ([], .error ⟨"Assertion Failed: " ++ desc⟩)
  else
    ([], .ok ())

/-- The development `deprecateFunc` implementation (lines 117–131). It
dispatches on `args.length === 3`: with three arguments
`(message, options, func)` the returned wrapper calls
`deprecate(message, false, options)` then `func.apply(this, arguments)`;
otherwise `(message, func) = (args[0], args[1])` and the wrapper calls
`deprecate(message)` then `func.apply(this, arguments)`. The call into
the `deprecate` entry point is recorded as a `deprecateCall` effect;
the wrapper returns `func`'s result. -/
def deprecateFuncDev (env : FuncEnv) (args : List JSValue) : JSFunc :=
  if args.length = 3 then
    let message := args.getD 0 .undefined
    let options := args.getD 1 .undefined
    let func := args.getD 2 .undefined
    fun thisv callArgs =>
      let (effs, res) := applyJS env func thisv callArgs
      (Effect.deprecateCall [message, .bool false, options] :: effs, res)
  else
    let message := args.getD 0 .undefined
    let func := args.getD 1 .undefined
    fun thisv callArgs =>
      let (effs, res) := applyJS env func thisv callArgs
      (Effect.deprecateCall [message] :: effs, res)

/-- The development `runInDebug` implementation (lines 155–157):
`function runInDebug(func) { func(); }` — calls `func` immediately,
discards its value, and returns `undefined` (a thrown error
propagates). -/
def runInDebugDev (env : FuncEnv) : DebugFn := fun args =>
  match applyJS env (args.getD 0 .undefined) .undefined [] with
  | (effs, .ok _) => (effs, .ok .undefined)
  | (effs, .error e) => (effs, .error e)

/-- The message of the module's `ENABLE_OPTIONAL_FEATURES` warning
(line 183). -/
def optionalFeaturesMessage : String :=
  "Ember.ENV.ENABLE_OPTIONAL_FEATURES is only available in canary builds."

/-- The deduplication id used by both warnings of
`_warnIfUsingStrippedFeatureFlags` (lines 183 and 192). -/
def strippedFlagId : String :=
  "ember-debug.feature-flag-with-features-stripped"

/-- The per-flag message of line 192:
`FEATURE["${key}"] is set as enabled, but FEATURE flags are only
available in canary builds.`. -/
def perFlagMessage (key : String) : String :=
  "FEATURE[\"" ++ key ++ "\"] is set as enabled, but FEATURE flags are only available in canary builds."

/-- `_warnIfUsingStrippedFeatureFlags(FEATURES, knownFeatures,
featuresWereStripped)` (lines 181–195), with `ENV.ENABLE_OPTIONAL_FEATURES`
passed explicitly. It returns the trace of `warn(message, test, { id })`
calls it makes: nothing when `featuresWereStripped` is false; otherwise
the `ENABLE_OPTIONAL_FEATURES` warn call followed by, for each key of
`FEATURES` that is not `'isEnabled'` and is `in knownFeatures`, a warn
call whose test is `!FEATURES[key]`. (The source's `FEATURES || {}`
default applies only when the object is missing; the embedding always
receives an object.) -/
def _warnIfUsingStrippedFeatureFlags (enableOptionalFeatures : JSValue)
    (FEATURES knownFeatures : JSObj) (featuresWereStripped : Bool) :
    List Effect :=
  if featuresWereStripped then
    Effect.warnCall optionalFeaturesMessage (!truthy enableOptionalFeatures)
        strippedFlagId ::
      (keysOf FEATURES).filterMap (fun key =>
        if key == "isEnabled" || !hasKey knownFeatures key then
          none
        else
          some (Effect.warnCall (perFlagMessage key)
            (!truthy (getKey FEATURES key)) strippedFlagId))
  else
    []

/-- A `warn(message, test, ...)` call actually emits a warning exactly
when its test argument is falsy. -/
def isEmittedWarning : Effect → Bool
  | .warnCall _ test _ => !test
  | _ => false

/-- The warnings actually emitted along a trace. -/
def emittedWarnings (effs : List Effect) : List Effect :=
  effs.filter isEmittedWarning

/-- The `features-stripped-test` canary probe run at module
initialization (lines 197–207): set `FEATURES['features-stripped-test'] = true`,
start with `featuresWereStripped = true`, clear it if
`isFeatureEnabled('features-stripped-test')` holds, then
`delete FEATURES['features-stripped-test']`. `isFeatureEnabled` (from
`./features`, not part of this fragment) is taken as an abstract query
over the flag state. Returns the computed `featuresWereStripped`
together with the final flag state. -/
def featuresStrippedProbe (FEATURES : JSObj)
    (isFeatureEnabled : JSObj → String → Bool) : Bool × JSObj :=
  let f1 := setKey FEATURES "features-stripped-test" (.bool true)
  let featuresWereStripped :=
    if isFeatureEnabled f1 "features-stripped-test" then false else true
  (featuresWereStripped, delKey f1 "features-stripped-test")

/-- The number of calls into the deprecation path along a trace. -/
def countDeprecateCalls (effs : List Effect) : Nat :=
  (effs.filter (fun e =>
    match e with
    | .deprecateCall _ => true
    | _ => false)).length

theorem getKey_setKey (o : JSObj) (k : String) (v : JSValue) :
    getKey (setKey o k v) k = v := by
  induction o with
  | nil => simp [setKey, getKey, List.find?]
  | cons p rest ih =>
    by_cases h : p.1 == k
    · simp [setKey, h, getKey, List.find?]
    · simpa [setKey, h, getKey, List.find?] using ih

theorem hasKey_delKey (o : JSObj) (k : String) :
    hasKey (delKey o k) k = false := by
  simp [hasKey, delKey]

/-- C1: for every description `desc`, the development `assert(desc, test)`
with a truthy `test` does not fail and has no effect (empty trace, unit
result), and with a falsy `test` always fails with an exception-like
error whose message contains `desc`. -/
theorem assert_spec (desc : String) (test : JSValue) :
    (truthy test = true → assertDev desc test = ([], .ok ())) ∧
    (truthy test = false →
      ∃ e, assertDev desc test = ([], .error e) ∧
        ∃ pre post, e.message = pre ++ desc ++ post) := by
  constructor
  · intro h
    simp [assertDev, h]
  · intro h
    refine ⟨⟨"Assertion Failed: " ++ desc⟩, by simp [assertDev, h],
      "Assertion Failed: ", "", ?_⟩
    simp

/-- Witness for C1 at `desc = "Must pass a valid object"` with `test`
`true` resp. `false`. -/
theorem assert_spec_witness :
    assertDev "Must pass a valid object" (.bool true) = ([], .ok ()) ∧
    ∃ e, assertDev "Must pass a valid object" (.bool false) = ([], .error e) ∧
      ∃ pre post, e.message = pre ++ "Must pass a valid object" ++ post :=
  ⟨(assert_spec "Must pass a valid object" (.bool true)).1 rfl,
   (assert_spec "Must pass a valid object" (.bool false)).2 rfl⟩

/-- C2: the function returned by the development
`deprecateFunc(msg, fn)`, when called, invokes the deprecation path with
`msg`, then calls `fn` with the same arguments and the same
`this`-binding used at call time, and returns exactly `fn`'s result; the
trace holds exactly one more deprecation call than `fn` itself makes. -/
theorem deprecateFunc_wraps (env : FuncEnv) (msg : JSValue) (id : Nat)
    (thisv : JSValue) (callArgs : List JSValue) :
    deprecateFuncDev env [msg, .funcRef id] thisv callArgs =
      (Effect.deprecateCall [msg] :: (env id thisv callArgs).1,
       (env id thisv callArgs).2) ∧
    countDeprecateCalls (deprecateFuncDev env [msg, .funcRef id] thisv callArgs).1 =
      countDeprecateCalls (env id thisv callArgs).1 + 1 := by
  rcases hres : env id thisv callArgs with ⟨effs, res⟩
  constructor
  · simp [deprecateFuncDev, applyJS, hres]
  · simp [deprecateFuncDev, applyJS, hres, countDeprecateCalls]

/-- C3: with `flagsWereStripped` true, for every key of `activeFlags`
that is also in `knownFeatureNames` and is not the reserved key
`'isEnabled'`, `_warnIfUsingStrippedFeatureFlags` makes a per-flag warn
call whose test is the negated flag value, and that call emits a warning
if and only if the flag's value is truthy; on
`({a: true, b: false}, {a: true, b: true}, true)` (optional features
off) exactly one per-flag warning is emitted, for `a`, and none for
`b`. -/
theorem warn_per_stripped_flag (envOpt : JSValue)
    (FEATURES knownFeatures : JSObj) (key : String)
    (hk : key ∈ keysOf FEATURES)
    (hknown : hasKey knownFeatures key = true)
    (hne : key ≠ "isEnabled") :
    (Effect.warnCall (perFlagMessage key) (!truthy (getKey FEATURES key))
        strippedFlagId ∈
      _warnIfUsingStrippedFeatureFlags envOpt FEATURES knownFeatures true) ∧
    (isEmittedWarning (Effect.warnCall (perFlagMessage key)
        (!truthy (getKey FEATURES key)) strippedFlagId) =
      truthy (getKey FEATURES key)) ∧
    emittedWarnings (_warnIfUsingStrippedFeatureFlags .undefined
        [("a", .bool true), ("b", .bool false)]
        [("a", .bool true), ("b", .bool true)] true) =
      [Effect.warnCall (perFlagMessage "a") false strippedFlagId] := by
  refine ⟨?_, ?_, ?_⟩
  · simp only [_warnIfUsingStrippedFeatureFlags, if_pos]
    apply List.mem_cons_of_mem
    apply List.mem_filterMap.mpr
    refine ⟨key, hk, ?_⟩
    simp [hne, hknown]
  · simp [isEmittedWarning]
  · rfl

/-- Witness for C3 at `activeFlags = {a: true}`,
`knownFeatureNames = {a: true}`, `key = "a"`. -/
theorem warn_per_stripped_flag_witness :
    (Effect.warnCall (perFlagMessage "a")
        (!truthy (getKey [("a", .bool true)] "a")) strippedFlagId ∈
      _warnIfUsingStrippedFeatureFlags .undefined [("a", .bool true)]
        [("a", .bool true)] true) ∧
    (isEmittedWarning (Effect.warnCall (perFlagMessage "a")
        (!truthy (getKey [("a", .bool true)] "a")) strippedFlagId) =
      truthy (getKey [("a", .bool true)] "a")) ∧
    emittedWarnings (_warnIfUsingStrippedFeatureFlags .undefined
        [("a", .bool true), ("b", .bool false)]
        [("a", .bool true), ("b", .bool true)] true) =
      [Effect.warnCall (perFlagMessage "a") false strippedFlagId] :=
  warn_per_stripped_flag .undefined [("a", .bool true)] [("a", .bool true)]
    "a" (by simp [keysOf]) rfl (by decide)

/-- C4: after `setDebugFunction(name, customFn)`, `getDebugFunction(name)`
returns exactly the newly registered function, and the public `warn`
entry point called after `setDebugFunction('warn', customFn)` produces
exactly `customFn`'s trace and result on the forwarded arguments — no
other implementation runs. -/
theorem register_then_invoke (reg : Registry) (customFn : DebugFn)
    (name : String) (args : List JSValue) :
    getDebugFunction (setDebugFunction reg name customFn) name =
      some customFn ∧
    Entry.warn (setDebugFunction reg "warn" customFn) args = customFn args := by
  constructor
  · simp [getDebugFunction, setDebugFunction]
  · simp [Entry.warn, setDebugFunction, applyFn]

/-- C5: in the initial (stripped/no-op) registry configuration,
`assert(desc, false)` does not fail (empty trace, no error), and
`deprecateFunc(msg, fn)` returns the target `fn` itself unwrapped, with
no warning emitted. -/
theorem noop_config (descV msgV fnV : JSValue) :
    Entry.assert debugFunctions [descV, .bool false] = ([], .ok .undefined) ∧
    Entry.deprecateFunc debugFunctions [msgV, fnV] = ([], .ok fnV) := by
  exact ⟨rfl, rfl⟩

/-- C6: with `featuresWereStripped` false,
`_warnIfUsingStrippedFeatureFlags` does nothing: its trace is empty (so
zero warnings are emitted, and no state is touched — the function is
pure in the embedding and performs no calls at all). -/
theorem warnIf_not_stripped_noop (envOpt : JSValue)
    (FEATURES knownFeatures : JSObj) :
    _warnIfUsingStrippedFeatureFlags envOpt FEATURES knownFeatures false = [] ∧
    emittedWarnings
      (_warnIfUsingStrippedFeatureFlags envOpt FEATURES knownFeatures false) =
      [] :=
  ⟨rfl, rfl⟩

/-- C7: the stripped-flags probe installs the canary
`'features-stripped-test'` (it reads back as `true` in the state the
query sees), removes it afterwards so the final flag state has no canary
entry, and judges flags stripped exactly when the feature-enabled query
reported the canary disabled despite it having been set. -/
theorem stripped_probe_spec (FEATURES : JSObj)
    (isFeatureEnabled : JSObj → String → Bool) :
    hasKey (featuresStrippedProbe FEATURES isFeatureEnabled).2
      "features-stripped-test" = false ∧
    getKey (setKey FEATURES "features-stripped-test" (.bool true))
      "features-stripped-test" = .bool true ∧
    ((featuresStrippedProbe FEATURES isFeatureEnabled).1 = true ↔
      isFeatureEnabled (setKey FEATURES "features-stripped-test" (.bool true))
        "features-stripped-test" = false) := by
  refine ⟨hasKey_delKey _ _, getKey_setKey _ _ _, ?_⟩
  by_cases h : isFeatureEnabled
      (setKey FEATURES "features-stripped-test" (.bool true))
      "features-stripped-test" <;>
    simp [featuresStrippedProbe, h]

/-- C8: every public entry point looks up the implementation currently
registered under its name at call time, forwards all of its arguments to
it, and returns that implementation's trace and result. -/
theorem entry_points_forward (reg : Registry) (args : List JSValue)
    (impl : DebugFn) :
    (getDebugFunction reg "assert" = some impl →
      Entry.assert reg args = impl args) ∧
    (getDebugFunction reg "info" = some impl →
      Entry.info reg args = impl args) ∧
    (getDebugFunction reg "warn" = some impl →
      Entry.warn reg args = impl args) ∧
    (getDebugFunction reg "debug" = some impl →
      Entry.debug reg args = impl args) ∧
    (getDebugFunction reg "deprecate" = some impl →
      Entry.deprecate reg args = impl args) ∧
    (getDebugFunction reg "deprecateFunc" = some impl →
      Entry.deprecateFunc reg args = impl args) ∧
    (getDebugFunction reg "runInDebug" = some impl →
      Entry.runInDebug reg args = impl args) ∧
    (getDebugFunction reg "debugSeal" = some impl →
      Entry.debugSeal reg args = impl args) ∧
    (getDebugFunction reg "debugFreeze" = some impl →
      Entry.debugFreeze reg args = impl args) := by
  refine ⟨?_, ?_, ?_, ?_, ?_, ?_, ?_, ?_, ?_⟩ <;>
    · intro h
      simp only [getDebugFunction] at h
      simp [Entry.assert, Entry.info, Entry.warn, Entry.debug,
        Entry.deprecate, Entry.deprecateFunc, Entry.runInDebug,
        Entry.debugSeal, Entry.debugFreeze, h, applyFn]

/-- A registry state as after module initialization has registered a
`runInDebug` implementation; used to witness C8. -/
def witnessRegistry : Registry :=
  setDebugFunction debugFunctions "runInDebug" noop

/-- Witness for C8: in `witnessRegistry` each of the nine entry points
forwards to the implementation stored under its name. -/
theorem entry_points_forward_witness :
    Entry.assert witnessRegistry [] = noop [] ∧
    Entry.info witnessRegistry [] = noop [] ∧
    Entry.warn witnessRegistry [] = noop [] ∧
    Entry.debug witnessRegistry [] = noop [] ∧
    Entry.deprecate witnessRegistry [] = noop [] ∧
    Entry.deprecateFunc witnessRegistry [] = noopDeprecateFunc [] ∧
    Entry.runInDebug witnessRegistry [] = noop [] ∧
    Entry.debugSeal witnessRegistry [] = noop [] ∧
    Entry.debugFreeze witnessRegistry [] = noop [] :=
  ⟨(entry_points_forward witnessRegistry [] noop).1 rfl,
   (entry_points_forward witnessRegistry [] noop).2.1 rfl,
   (entry_points_forward witnessRegistry [] noop).2.2.1 rfl,
   (entry_points_forward witnessRegistry [] noop).2.2.2.1 rfl,
   (entry_points_forward witnessRegistry [] noop).2.2.2.2.1 rfl,
   (entry_points_forward witnessRegistry [] noopDeprecateFunc).2.2.2.2.2.1 rfl,
   (entry_points_forward witnessRegistry [] noop).2.2.2.2.2.2.1 rfl,
   (entry_points_forward witnessRegistry [] noop).2.2.2.2.2.2.2.1 rfl,
   (entry_points_forward witnessRegistry [] noop).2.2.2.2.2.2.2.2 rfl⟩

/-- C9: the initial `debugFunctions` registry has entries for exactly the
eight names `assert`, `info`, `warn`, `debug`, `deprecate`,
`deprecateFunc`, `debugSeal`, `debugFreeze` and none for `runInDebug`;
calling the `runInDebug` entry point on the initial state throws the
not-a-function error, and it forwards to `impl` once some `impl` is
registered under `'runInDebug'`. -/
theorem initial_registry_shape :
    (∀ name, (getDebugFunction debugFunctions name).isSome = true ↔
      name ∈ ["assert", "info", "warn", "debug", "deprecate",
        "deprecateFunc", "debugSeal", "debugFreeze"]) ∧
    getDebugFunction debugFunctions "runInDebug" = none ∧
    (∀ args, Entry.runInDebug debugFunctions args =
      ([], .error ⟨"TypeError: not a function"⟩)) ∧
    (∀ impl args,
      Entry.runInDebug (setDebugFunction debugFunctions "runInDebug" impl)
        args = impl args) := by
  refine ⟨?_, rfl, fun args => rfl, ?_⟩
  · intro name
    simp only [getDebugFunction, debugFunctions]
    split_ifs <;> simp_all
  · intro impl args
    simp [Entry.runInDebug, setDebugFunction, applyFn]

/-- A function environment giving every function reference the semantics
of an effect-free function returning `undefined`; used to witness C10. -/
def constEnv : FuncEnv := fun _ _ _ => ([], .ok .undefined)

/-- C10: the development `deprecateFunc` dispatches on argument count:
with exactly three arguments `(message, options, func)` the wrapper
invokes the deprecation path with `(message, false, options)`; for any
other argument count it takes `args[0]` as message and `args[1]` as the
target function, ignoring further arguments, and the wrapper invokes the
deprecation path with the message alone. -/
theorem deprecateFunc_arity_dispatch (env : FuncEnv)
    (message options func thisv : JSValue) (callArgs args : List JSValue)
    (h : args.length ≠ 3) :
    (deprecateFuncDev env [message, options, func] thisv callArgs =
      (Effect.deprecateCall [message, .bool false, options] ::
         (applyJS env func thisv callArgs).1,
       (applyJS env func thisv callArgs).2)) ∧
    (deprecateFuncDev env args thisv callArgs =
      (Effect.deprecateCall [args.getD 0 .undefined] ::
         (applyJS env (args.getD 1 .undefined) thisv callArgs).1,
       (applyJS env (args.getD 1 .undefined) thisv callArgs).2)) := by
  constructor
  · rcases hres : applyJS env func thisv callArgs with ⟨effs, res⟩
    simp [deprecateFuncDev, hres]
  · simp only [deprecateFuncDev, if_neg h]

/-- Witness for C10 at a three-argument call and a four-argument call,
in the constant environment. -/
theorem deprecateFunc_arity_dispatch_witness :
    (deprecateFuncDev constEnv [.str "m", .obj [], .funcRef 0] .undefined [] =
      (Effect.deprecateCall [.str "m", .bool false, .obj []] ::
         (applyJS constEnv (.funcRef 0) .undefined []).1,
       (applyJS constEnv (.funcRef 0) .undefined []).2)) ∧
    (deprecateFuncDev constEnv [.str "m", .funcRef 0, .null, .num 7]
        .undefined [] =
      (Effect.deprecateCall
          [([(.str "m"), .funcRef 0, .null, .num 7] : List JSValue).getD 0
            .undefined] ::
         (applyJS constEnv
           (([(.str "m"), .funcRef 0, .null, .num 7] : List JSValue).getD 1
             .undefined) .undefined []).1,
       (applyJS constEnv
         (([(.str "m"), .funcRef 0, .null, .num 7] : List JSValue).getD 1
           .undefined) .undefined []).2)) :=
  ⟨(deprecateFunc_arity_dispatch constEnv (.str "m") (.obj []) (.funcRef 0)
      .undefined [] [.str "m", .funcRef 0, .null, .num 7] (by simp)).1,
   (deprecateFunc_arity_dispatch constEnv (.str "m") (.obj []) (.funcRef 0)
      .undefined [] [.str "m", .funcRef 0, .null, .num 7] (by simp)).2⟩

end EmberDebug
